import Mathlib

/-!
Verification of the Stock-Pilot inventory core: a shallow embedding of the
inventory store mutations (`src/services/inventoryService.ts`) and of the
voice tool-call interpreter (`src/components/InventoryManager.tsx`), with
theorems checking the documented behaviour against the embedded code.

Modelling conventions: one user's slice of the Firestore database is a list
of documents; JavaScript numbers carrying quantities, prices and counters are
`Int`; optional/absent document fields are `Option`s; the handler's mutable
refs are a state record threaded through the dispatch function.
-/

namespace StockPilot

/-- Expiry status enum of `InventoryItem.expiryStatus` in `types.ts`. -/
inductive ExpiryStatus where
  | none
  | upcoming
  | expired
deriving DecidableEq

/-- The `alertRules` record of `InventoryItem` in `types.ts`. -/
structure AlertRules where
  notifyBeforeDays : Int
  notifyWhenExpired : Bool
deriving DecidableEq

/-- The `Timestamp` computed by `addOrUpdateItem` from a DD-MM-YYYY string via
`new Date(year, monthIndex, day)`; the constant end-of-day time component set
by `setHours(23, 59, 59, 999)` is omitted from the representation. -/
structure ExpiryTimestamp where
  year : Int
  monthIndex : Int
  day : Int
deriving DecidableEq

/-- `InventoryItem` of `types.ts`, one document of `users/{uid}/inventory`.
Fields a given document may lack (Firestore documents are schemaless and
`addOrUpdateItem` writes only some fields) are `Option`s; `id` is the
document id. `lastAlertedAt` keeps only presence and an abstract time. -/
structure InventoryItem where
  id : Nat
  name : String
  quantity : Int
  price : Int
  supplierId : Option String := Option.none
  expiryDate : Option String := Option.none
  expiryTimestamp : Option ExpiryTimestamp := Option.none
  expiryStatus : Option ExpiryStatus := Option.none
  alertRules : Option AlertRules := Option.none
  lastAlertedAt : Option Int := Option.none
deriving DecidableEq

/-- An expiry notification, reduced to the fields the inventory code depends
on (`meta.itemId` of `Notification` in `types.ts`). -/
structure Notification where
  id : Nat
  itemId : Nat
deriving DecidableEq

/-- A user's slice of the database touched by the inventory service: the
`users/{uid}/inventory` collection and the user's notifications. -/
structure Store where
  inventory : List InventoryItem
  notifications : List Notification
deriving DecidableEq

/-- JavaScript `String.prototype.toLowerCase` on one character: the simple
one-to-one lowering of the Basic Latin and Latin-1 letter ranges (the
multiplication sign at 215 is not a letter and stays). Characters beyond
Latin-1, whose JS lowering can even change the length of the string, are kept
as they are — an approximation recorded here, applied identically wherever the
code calls `toLowerCase`. -/
def jsCharToLower (c : Char) : Char :=
  let n := c.toNat
  if 65 ≤ n ∧ n ≤ 90 then Char.ofNat (n + 32)
  else if 192 ≤ n ∧ n ≤ 222 ∧ n ≠ 215 then Char.ofNat (n + 32)
  else c

/-- JavaScript `String.prototype.toLowerCase` as the code applies it to item
names: lower-case every character. -/
def jsToLowerCase (s : String) : String := String.mk (s.data.map jsCharToLower)

/-- JavaScript `String.prototype.split` with a one-character separator:
`"a-b".split("-")` is `["a", "b"]`, `"".split("-")` is `[""]`. -/
def splitOnChar (sep : Char) : List Char → List (List Char)
  | [] => [[]]
  | c :: cs =>
    let rest := splitOnChar sep cs
    if c == sep then [] :: rest
    else
      match rest with
      | r :: rs => (c :: r) :: rs
      | [] => [[c]]

/-- The leading whitespace JavaScript `parseInt` skips: the JS WhiteSpace and
LineTerminator code points of the Latin ranges plus the BOM. -/
def isJsWhitespace (c : Char) : Bool :=
  c == ' ' || c == '\t' || c == '\n' || c == '\r' ||
  c == '\x0b' || c == '\x0c' || c == '\u00a0' || c == '\ufeff'

/-- A decimal digit's value for `parseInt`, `none` for a non-digit. -/
def decDigitValue (c : Char) : Option Nat :=
  if c.isDigit then Option.some (c.toNat - 48) else Option.none

/-- A hexadecimal digit's value for the `0x` prefix of `parseInt`. -/
def hexDigitValue (c : Char) : Option Nat :=
  if c.isDigit then Option.some (c.toNat - 48)
  else if 97 ≤ c.toNat ∧ c.toNat ≤ 102 then Option.some (c.toNat - 87)
  else if 65 ≤ c.toNat ∧ c.toNat ≤ 70 then Option.some (c.toNat - 55)
  else Option.none

/-- The digit run `parseInt` consumes: the longest prefix of valid digits of
the base, `none` (`NaN`) when there is not even one. -/
def jsParseIntDigits (base : Nat) (digitVal : Char → Option Nat)
    (cs : List Char) : Option Int :=
  let ds := ((cs.map digitVal).takeWhile Option.isSome).map (fun o => o.getD 0)
  if ds.isEmpty then Option.none
  else Option.some ((ds.foldl (fun acc v => acc * base + v) 0 : Nat) : Int)

/-- `parseInt` after whitespace and sign handling: a `0x`/`0X` prefix selects
hexadecimal, anything else is read as decimal. -/
def jsParseIntUnsigned (cs : List Char) : Option Int :=
  match cs with
  | '0' :: x :: rest =>
    if x == 'x' || x == 'X' then jsParseIntDigits 16 hexDigitValue rest
    else jsParseIntDigits 10 decDigitValue ('0' :: x :: rest)
  | _ => jsParseIntDigits 10 decDigitValue cs

/-- JavaScript `parseInt` with no radix argument: skip leading whitespace,
read an optional sign directly followed by a hexadecimal `0x` run or a
decimal digit run; `none` for `NaN`. -/
def jsParseInt (cs0 : List Char) : Option Int :=
  let cs := cs0.dropWhile isJsWhitespace
  match cs with
  | '-' :: rest => (jsParseIntUnsigned rest).map (fun v => -v)
  | '+' :: rest => jsParseIntUnsigned rest
  | _ => jsParseIntUnsigned cs

/-- The expiry `Timestamp` computation of `addOrUpdateItem`
(`inventoryService.ts` lines 54-59): split on a dash and read DD-MM-YYYY as
`new Date(y, m - 1, d)`. `none` stands for an absent field; it arises when the
string does not split into three parts, or when a part parses to `NaN`. The
`NaN` case is where this pure model ends: there the code builds
`Timestamp.fromDate` of an invalid `Date`, which THROWS inside the
transaction, so no document is written at all — and on the update branch a
non-3-part date likewise makes `transaction.update` receive an `undefined`
field value, which Firestore rejects (`firebase.ts` does not set
`ignoreUndefinedProperties`). Theorems about expiry-carrying writes therefore
restrict the date to the `matchesDDMMYYYY` pattern — the only shape the voice
flow lets through — on which this model is exact. -/
def parseExpiryTimestamp (expiryDate : String) : Option ExpiryTimestamp :=
  let parts := splitOnChar '-' expiryDate.data
  if parts.length == 3 then
    match jsParseInt (parts.getD 2 []), jsParseInt (parts.getD 1 []),
        jsParseInt (parts.getD 0 []) with
    | Option.some y, Option.some m, Option.some d =>
        Option.some { year := y, monthIndex := m - 1, day := d }
    | _, _, _ => Option.none
  else Option.none

/-- `findItemByName` (`inventoryService.ts` lines 22-35): query the inventory
collection for `name == itemName.toLowerCase()` and take the first document. -/
def findItemByName (inv : List InventoryItem) (itemName : String) :
    Option InventoryItem :=
  inv.find? (fun it => it.name == jsToLowerCase itemName)

/-- Apply `f` to the first list element satisfying `p`: a Firestore
`transaction.update` aimed at the document a query found. -/
def updateFirst (p : α → Bool) (f : α → α) : List α → List α
  | [] => []
  | x :: xs => if p x then f x :: xs else x :: updateFirst p f xs

/-- The document written by the create branch of `addOrUpdateItem`
(`inventoryService.ts` lines 46-66): `{name, quantity, price}` plus, when an
expiry date is given (JavaScript truthiness: neither `undefined` nor the
empty string), the expiry fields and the default alert rules. Exact for dates
of the `matchesDDMMYYYY` shape and for non-3-part dates (where the code too
leaves `expiryTimestamp` unset); for a 3-part date with a `NaN` part the real
`Timestamp.fromDate` throws and no document is created at all, which this
total function does not represent — theorems quantifying over a given date
therefore carry the pattern restriction. -/
def newItemDoc (freshId : Nat) (normalizedItemName : String)
    (quantity price : Int) (expiryDate : Option String) : InventoryItem :=
  match expiryDate with
  | Option.some d =>
    if d.isEmpty then
      { id := freshId, name := normalizedItemName, quantity := quantity, price := price }
    else
      { id := freshId, name := normalizedItemName, quantity := quantity, price := price,
        expiryDate := Option.some d,
        expiryTimestamp := parseExpiryTimestamp d,
        expiryStatus := Option.some ExpiryStatus.none,
        alertRules := Option.some { notifyBeforeDays := 7, notifyWhenExpired := true } }
  | Option.none =>
      { id := freshId, name := normalizedItemName, quantity := quantity, price := price }

/-- The `transaction.update` of the update branch of `addOrUpdateItem`
(`inventoryService.ts` lines 67-81): quantity accumulates, price is
overwritten, and when an expiry date is given the expiry fields are rewritten
and status/last-alerted reset; `alertRules` is not part of `updatedData`.
Exact for dates of the `matchesDDMMYYYY` shape; for a malformed given date
the real write FAILS — a non-3-part date puts `expiryTimestamp = undefined`
into `transaction.update`, which Firestore rejects, and a 3-part date with a
`NaN` part makes `Timestamp.fromDate` throw — so nothing at all is updated
there, which this total function does not represent. Theorems quantifying
over a given date therefore carry the pattern restriction. -/
def applyItemUpdate (quantity price : Int) (expiryDate : Option String)
    (existing : InventoryItem) : InventoryItem :=
  let base := { existing with quantity := existing.quantity + quantity, price := price }
  match expiryDate with
  | Option.some d =>
    if d.isEmpty then base
    else
      { base with expiryDate := Option.some d,
                  expiryTimestamp := parseExpiryTimestamp d,
                  expiryStatus := Option.some ExpiryStatus.none,
                  lastAlertedAt := Option.none }
  | Option.none => base

/-- `addOrUpdateItem` (`inventoryService.ts` lines 38-84): normalize the name,
query for an existing document with that name; create a fresh document when
none matches, otherwise update the matched document. `freshId` stands for the
id Firestore generates for `doc(itemRef)`. The embedding is exact when the
expiry argument is omitted or matches the `DD-MM-YYYY` pattern (the only
shape the voice flow lets through); malformed given dates can make the real
transaction throw (see `parseExpiryTimestamp`) and lie outside the theorems
about expiry-carrying calls. -/
def addOrUpdateItem (freshId : Nat) (inv : List InventoryItem) (itemName : String)
    (quantity price : Int) (expiryDate : Option String := Option.none) :
    List InventoryItem :=
  let normalizedItemName := jsToLowerCase itemName
  match inv.find? (fun it => it.name == normalizedItemName) with
  | Option.none => inv ++ [newItemDoc freshId normalizedItemName quantity price expiryDate]
  | Option.some _ =>
      updateFirst (fun it => it.name == normalizedItemName)
        (applyItemUpdate quantity price expiryDate) inv

/-- The structured `(success, message)` result `removeItem` returns. -/
structure RemoveResult where
  success : Bool
  message : String
deriving DecidableEq

/-- Modelled from the spec: `deleteNotificationsForItem` lives in
`notificationService.ts`, which is not among the source files (only the
importing call sites in `inventoryService.ts` are). The spec says deletion
of an item "cascades to any expiry notifications referencing it", so the
cleanup drops every notification whose `itemId` references the item. -/
def deleteNotificationsForItem (notifs : List Notification) (itemId : Nat) :
    List Notification :=
  notifs.filter (fun n => n.itemId != itemId)

/-- `removeItem` (`inventoryService.ts` lines 109-144): look the item up by
normalized name; inside the transaction re-read the document by reference and
fail on a missing document or insufficient quantity; on exact depletion delete
the document and clean up its notifications, otherwise decrement in place.
Expected business conditions come back as a structured result (the function
is total), never as a thrown error. -/
def removeItem (store : Store) (itemName : String) (quantityToRemove : Int) :
    RemoveResult × Store :=
  let normalizedItemName := jsToLowerCase itemName
  match findItemByName store.inventory normalizedItemName with
  | Option.none =>
    ({ success := false,
       message := "I couldn't find any " ++ itemName ++ " in the inventory." }, store)
  | Option.some itemData =>
    match store.inventory.find? (fun it => it.id == itemData.id) with
    | Option.none =>
        ({ success := false, message := "This item was already removed." }, store)
    | Option.some itemDoc =>
      let currentQuantity := itemDoc.quantity
      if currentQuantity < quantityToRemove then
        ({ success := false,
           message := "You only have " ++ toString currentQuantity ++ " " ++ itemName ++
             ". I can't remove " ++ toString quantityToRemove ++ "." }, store)
      else
        let newQuantity := currentQuantity - quantityToRemove
        if newQuantity == 0 then
          ({ success := true, message := "Removed all " ++ itemName ++ "." },
           { inventory := store.inventory.filter (fun it => it.id != itemData.id),
             notifications := deleteNotificationsForItem store.notifications itemData.id })
        else
          ({ success := true,
             message := "Removed " ++ toString quantityToRemove ++ " " ++ itemName ++ "." },
           { store with
               inventory := updateFirst (fun it => it.id == itemData.id)
                 (fun it => { it with quantity := newQuantity }) store.inventory })

/-- `deleteItemsBatch` (`inventoryService.ts` lines 146-160): unconditional
batch delete of the given document ids, then per-id notification cleanup. -/
def deleteItemsBatch (store : Store) (itemIds : List Nat) : Store :=
  if itemIds.isEmpty then store
  else
    { inventory := store.inventory.filter (fun it => !(itemIds.contains it.id)),
      notifications := store.notifications.filter (fun n => !(itemIds.contains n.itemId)) }

/-- The plan field of `UserProfile` in `types.ts`. -/
inductive Plan where
  | free
  | pro
deriving DecidableEq

/-- `UserUsage` of `types.ts`. -/
structure UserUsage where
  aiScans : Int
  promosGenerated : Int
  inventoryCount : Int
deriving DecidableEq

/-- The slice of `UserProfile` (`types.ts`) the tool-call handler reads. -/
structure UserProfile where
  plan : Plan
  categories : List String
  usage : UserUsage
deriving DecidableEq

/-- Modelled from the spec: `PLAN_LIMITS` lives in `constants.ts`, which is
not among the source files (only its import in `InventoryManager.tsx` is).
The spec gives the static limit table the shape
`{free: {maxInventoryItems, maxAiScans, maxPromos}, pro: unlimited}` without
fixing the numbers, so the free-plan table is a parameter of the model. -/
structure FreePlanLimits where
  maxInventoryItems : Int
  maxAiScans : Int
  maxPromos : Int
deriving DecidableEq

/-- The three feature keys `checkUsageLimit` accepts. -/
inductive UsageFeature where
  | aiScans
  | promosGenerated
  | inventoryCount
deriving DecidableEq

/-- The limit `checkUsageLimit` selects from `PLAN_LIMITS.free`
(`InventoryManager.tsx` line 131). -/
def staticLimit (lims : FreePlanLimits) : UsageFeature → Int
  | UsageFeature.inventoryCount => lims.maxInventoryItems
  | UsageFeature.aiScans => lims.maxAiScans
  | UsageFeature.promosGenerated => lims.maxPromos

/-- `checkUsageLimit` (`InventoryManager.tsx` lines 128-137): a missing
profile fails, a pro plan always passes, a free plan passes iff the count is
below the static limit. The `setShowSubscriptionModal(true)` side effect on
failure is UI-only and not represented. -/
def checkUsageLimit (lims : FreePlanLimits) (userProfile : Option UserProfile)
    (feature : UsageFeature) (currentCount : Int) : Bool :=
  match userProfile with
  | Option.none => false
  | Option.some p =>
    if p.plan == Plan.pro then true
    else if currentCount ≥ staticLimit lims feature then false
    else true

/-- The payload of `awaitingPriceInfoRef` (`InventoryManager.tsx` line 88). -/
structure PendingPriceInfo where
  itemName : String
  quantity : Int
deriving DecidableEq

/-- The payload of `awaitingQuantityInfoRef` (`InventoryManager.tsx` line 89). -/
structure PendingQuantityInfo where
  itemName : String
deriving DecidableEq

/-- The payload of `awaitingExpiryInfoRef` (`InventoryManager.tsx` line 90). -/
structure PendingExpiryInfo where
  itemName : String
  quantity : Int
  price : Int
deriving DecidableEq

/-- The tool calls the external agent can issue (the switch over `fc.name` in
`handleToolCall`), with their argument payloads; `initiateAddItem`'s quantity
is optional in the declared tool schema. -/
inductive FunctionCall where
  | initiateAddItem (itemName : String) (quantity : Option Int)
  | provideItemQuantity (quantity : Int)
  | provideItemPrice (price : Int)
  | provideItemExpiryDate (expiryDate : String)
  | removeItem (itemName : String) (quantity : Int)
  | queryInventory
  | performBulkAction (actionType : String)
deriving DecidableEq

/-- The `result` value `handleToolCall` builds; its `message` is sent back
through `sendToolResponse` as the next conversational turn. -/
structure ToolResult where
  success : Bool
  message : String
deriving DecidableEq

/-- The mutable state `handleToolCall` reads and writes: the three
pending-slot refs, the store behind `inventoryRef`, the selection set behind
`selectedItemIdsRef` and the bulk-promo spinner flag. -/
structure HandlerState where
  awaitingPriceInfo : Option PendingPriceInfo := Option.none
  awaitingQuantityInfo : Option PendingQuantityInfo := Option.none
  awaitingExpiryInfo : Option PendingExpiryInfo := Option.none
  store : Store
  selectedItemIds : List Nat := []
  isGeneratingBulkPromo : Bool := false
deriving DecidableEq

/-- The date-format test of the `provideItemExpiryDate` branch
(`InventoryManager.tsx` line 201): JavaScript `/^\d{2}-\d{2}-\d{4}$/`, i.e.
two digits, a dash, two digits, a dash, four digits — nothing more. -/
def matchesDDMMYYYY (s : String) : Bool :=
  match s.toList with
  | [d1, d2, s1, m1, m2, s2, y1, y2, y3, y4] =>
    d1.isDigit && d2.isDigit && s1 == '-' && m1.isDigit && m2.isDigit && s2 == '-' &&
    y1.isDigit && y2.isDigit && y3.isDigit && y4.isDigit
  | _ => false

/-- The categories whose items require expiry tracking
(`InventoryManager.tsx` line 180). -/
def expiryCategories : List String := ["medical", "grocery", "sweets"]

/-- `handleToolCall` (`InventoryManager.tsx` lines 146-280): dispatch one tool
call against the pending-slot refs, the usage gate and the inventory store,
returning the result sent via `sendToolResponse` together with the updated
state. `freshId` stands for the document id Firestore would generate for a
created item. The asynchronous promo-content generation (an external AI call
whose callback resolves after the handler returns) is represented only by the
`isGeneratingBulkPromo` flag the handler sets synchronously. -/
def handleToolCall (lims : FreePlanLimits) (userProfile : UserProfile)
    (freshId : Nat) (st : HandlerState) (fc : FunctionCall) :
    ToolResult × HandlerState :=
  match fc with
  | FunctionCall.initiateAddItem itemName quantity =>
    match quantity with
    | Option.some q =>
      if q != 0 then
        ({ success := true,
           message := "Okay, adding " ++ toString q ++ " " ++ itemName ++
             ". How much does one cost?" },
         { st with awaitingPriceInfo := Option.some { itemName := itemName, quantity := q } })
      else
        ({ success := true,
           message := "Okay, you want to add " ++ itemName ++ ". How many?" },
         { st with awaitingQuantityInfo := Option.some { itemName := itemName } })
    | Option.none =>
      ({ success := true,
         message := "Okay, you want to add " ++ itemName ++ ". How many?" },
       { st with awaitingQuantityInfo := Option.some { itemName := itemName } })
  | FunctionCall.provideItemQuantity quantity =>
    match st.awaitingQuantityInfo with
    | Option.some info =>
      ({ success := true,
         message := "Got it, " ++ toString quantity ++ ". And how much is one in rupees?" },
       { st with
           awaitingPriceInfo := Option.some { itemName := info.itemName, quantity := quantity },
           awaitingQuantityInfo := Option.none })
    | Option.none =>
      ({ success := false,
         message := "I'm sorry, I don't know which item you're providing the quantity for." },
       st)
  | FunctionCall.provideItemPrice price =>
    match st.awaitingPriceInfo with
    | Option.some info =>
      let st1 := { st with awaitingPriceInfo := (Option.none : Option PendingPriceInfo) }
      let needsExpiry := userProfile.categories.any (fun cat => expiryCategories.contains cat)
      if !(checkUsageLimit lims (Option.some userProfile) UsageFeature.inventoryCount
            (st.store.inventory.length : Int)) then
        ({ success := false, message := "Inventory limit reached. Upgrade to add more items." },
         st1)
      else if needsExpiry then
        ({ success := true, message := "Price set. What is the expiry date? (DD-MM-YYYY)" },
         { st1 with awaitingExpiryInfo := Option.some (PendingExpiryInfo.mk
             info.itemName info.quantity price) })
      else
        let inv2 := addOrUpdateItem freshId st1.store.inventory info.itemName info.quantity price
        ({ success := true,
           message := "Great, added " ++ toString info.quantity ++ " " ++ info.itemName ++ "." },
         { st1 with store := { st1.store with inventory := inv2 } })
    | Option.none =>
      ({ success := false,
         message := "I don't know which item you're providing the price for." }, st)
  | FunctionCall.provideItemExpiryDate expiryDate =>
    match st.awaitingExpiryInfo with
    | Option.some info =>
      if !(matchesDDMMYYYY expiryDate) then
        ({ success := false, message := "Please provide the date in Day-Month-Year format." },
         st)
      else if !(checkUsageLimit lims (Option.some userProfile) UsageFeature.inventoryCount
                 (st.store.inventory.length : Int)) then
        ({ success := false, message := "Inventory limit reached." }, st)
      else
        let inv2 := addOrUpdateItem freshId st.store.inventory info.itemName info.quantity
          info.price (Option.some expiryDate)
        ({ success := true,
           message := "Added " ++ info.itemName ++ " with expiry " ++ expiryDate ++ "." },
         { st with
             awaitingExpiryInfo := Option.none,
             store := { st.store with inventory := inv2 } })
    | Option.none =>
      ({ success := false, message := "I don't know which item needs an expiry." }, st)
  | FunctionCall.removeItem itemName quantity =>
    let r := StockPilot.removeItem st.store itemName quantity
    ({ success := r.1.success, message := r.1.message }, { st with store := r.2 })
  | FunctionCall.queryInventory =>
    ({ success := true, message := "Query acknowledged. Proceed with your answer." }, st)
  | FunctionCall.performBulkAction actionType =>
    let currentSelection := st.selectedItemIds
    if actionType == "deselect" then
      ({ success := true, message := "Selection cleared." }, { st with selectedItemIds := [] })
    else if currentSelection.length == 0 then
      ({ success := false, message := "No items selected." }, st)
    else if actionType == "delete" then
      ({ success := true,
         message := "Deleted " ++ toString currentSelection.length ++ " items." },
       { st with store := deleteItemsBatch st.store currentSelection, selectedItemIds := [] })
    else if actionType == "promote" then
      let currentPromos := userProfile.usage.promosGenerated
      if !(checkUsageLimit lims (Option.some userProfile) UsageFeature.promosGenerated
            currentPromos) then
        ({ success := false, message := "Promo limit reached. Upgrade for more." }, st)
      else
        ({ success := true,
           message := "Generating promo for " ++ toString currentSelection.length ++ " items." },
         { st with isGeneratingBulkPromo := true })
    else
      ({ success := false, message := "Sorry, I couldn't do that." }, st)

/-- A free-plan limit table for concrete runs. -/
def exLims : FreePlanLimits := { maxInventoryItems := 100, maxAiScans := 100, maxPromos := 100 }

/-- A limit table whose inventory quota is already exhausted at an empty store. -/
def exTightLims : FreePlanLimits := { maxInventoryItems := 0, maxAiScans := 0, maxPromos := 0 }

/-- A zeroed usage counter record. -/
def exUsage : UserUsage := { aiScans := 0, promosGenerated := 0, inventoryCount := 0 }

/-- A free-plan user with no expiry-tracked category. -/
def exProfile : UserProfile := { plan := Plan.free, categories := [], usage := exUsage }

/-- A free-plan grocery user (grocery requires expiry tracking). -/
def exGrocery : UserProfile := { plan := Plan.free, categories := ["grocery"], usage := exUsage }

/-- A pro-plan grocery user. -/
def exProGrocery : UserProfile := { plan := Plan.pro, categories := ["grocery"], usage := exUsage }

/-- The empty per-user store. -/
def exEmptyStore : Store := { inventory := [], notifications := [] }

/-- An idle handler state over the empty store. -/
def exState : HandlerState := { store := exEmptyStore }

/-- A handler state in the AwaitingExpiry stage for two milk at price ten. -/
def exStateExpiry : HandlerState :=
  { awaitingExpiryInfo := Option.some { itemName := "milk", quantity := 2, price := 10 },
    store := exEmptyStore }

/-- A handler state in the AwaitingPrice stage for two milk. -/
def exStatePrice : HandlerState :=
  { awaitingPriceInfo := Option.some { itemName := "milk", quantity := 2 },
    store := exEmptyStore }

/-- An existing milk document with every optional field populated and custom
(non-default) alert rules, so that update theorems are exercised on a record
where preservation versus overwrite is observable. -/
def exMilkItem : InventoryItem :=
  { id := 4, name := "milk", quantity := 6, price := 9,
    supplierId := Option.some "sup1",
    expiryDate := Option.some "01-01-2026",
    expiryTimestamp := Option.some { year := 2026, monthIndex := 0, day := 1 },
    expiryStatus := Option.some ExpiryStatus.upcoming,
    alertRules := Option.some { notifyBeforeDays := 3, notifyWhenExpired := false },
    lastAlertedAt := Option.some 11 }

theorem updateFirst_append_not (p : α → Bool) (f : α → α) (l₁ l₂ : List α)
    (h : ∀ x ∈ l₁, ¬ p x) :
    updateFirst p f (l₁ ++ l₂) = l₁ ++ updateFirst p f l₂ := by
  induction l₁ with
  | nil => simp
  | cons x xs ih =>
    have hx : ¬ p x := h x (List.mem_cons_self x xs)
    simp only [List.cons_append, updateFirst, if_neg hx, List.append_eq]
    rw [ih (fun y hy => h y (List.mem_cons_of_mem x hy))]

theorem updateFirst_of_find? (p : α → Bool) (f : α → α) (l : List α) (e : α)
    (h : l.find? p = Option.some e) :
    ∃ l₁ l₂, l = l₁ ++ e :: l₂ ∧ (∀ x ∈ l₁, ¬ p x) ∧ p e ∧
      updateFirst p f l = l₁ ++ f e :: l₂ := by
  obtain ⟨hpe, as, bs, rfl, has⟩ := List.find?_eq_some.mp h
  have has' : ∀ x ∈ as, ¬ p x := by
    intro x hx
    simpa using has x hx
  refine ⟨as, bs, rfl, has', hpe, ?_⟩
  rw [updateFirst_append_not p f as (e :: bs) has']
  simp [updateFirst, hpe]

theorem find?_id_of_mem (l : List InventoryItem) (e : InventoryItem)
    (hids : l.Pairwise (fun a b => a.id ≠ b.id)) (he : e ∈ l) :
    l.find? (fun it => it.id == e.id) = Option.some e := by
  induction l with
  | nil => cases he
  | cons x xs ih =>
    rcases List.mem_cons.mp he with rfl | he'
    · simp
    · have hx : x.id ≠ e.id := (List.pairwise_cons.mp hids).1 e he'
      rw [List.find?_cons_of_neg _ (by simpa using hx)]
      exact ih (List.pairwise_cons.mp hids).2 he'

theorem matchesDDMMYYYY_not_empty (d : String) (h : matchesDDMMYYYY d = true) :
    d.isEmpty = false := by
  cases hd : d.isEmpty with
  | false => rfl
  | true =>
    have he : d = "" := (String.isEmpty_iff d).mp hd
    subst he
    have hf : matchesDDMMYYYY "" = false := by decide
    rw [hf] at h
    cases h

theorem addOrUpdateItem_create_eq (freshId : Nat) (inv : List InventoryItem)
    (itemName : String) (q p : Int) (dOpt : Option String)
    (h : inv.find? (fun it => it.name == jsToLowerCase itemName) = Option.none) :
    addOrUpdateItem freshId inv itemName q p dOpt
      = inv ++ [newItemDoc freshId (jsToLowerCase itemName) q p dOpt] := by
  simp [addOrUpdateItem, h]

theorem addOrUpdateItem_update_decomp (freshId : Nat) (inv : List InventoryItem)
    (itemName : String) (q p : Int) (dOpt : Option String) (e : InventoryItem)
    (hfind : inv.find? (fun it => it.name == jsToLowerCase itemName) = Option.some e) :
    ∃ l₁ l₂, inv = l₁ ++ e :: l₂
      ∧ (∀ x ∈ l₁, ¬ ((x.name == jsToLowerCase itemName) = true))
      ∧ addOrUpdateItem freshId inv itemName q p dOpt
          = l₁ ++ applyItemUpdate q p dOpt e :: l₂ := by
  obtain ⟨l₁, l₂, hdec, hnot, hpe, hupd⟩ :=
    updateFirst_of_find? (fun it => it.name == jsToLowerCase itemName)
      (applyItemUpdate q p dOpt) inv e hfind
  refine ⟨l₁, l₂, hdec, hnot, ?_⟩
  rw [addOrUpdateItem]
  simp only [hfind]
  exact hupd

/-- C1: performing `addOrUpdateItem(name, q1, p1)` and then
`addOrUpdateItem(name, q2, p2)` (no expiry), on an inventory holding no record
for the normalized name, leaves exactly one record for that name; its quantity
is `q1 + q2` (quantity accumulates) and its price is `p2` (price is
last-write-wins). -/
theorem addOrUpdateItem_twice_accumulates (id1 id2 : Nat) (inv : List InventoryItem)
    (itemName : String) (q1 p1 q2 p2 : Int)
    (habsent : ∀ it ∈ inv, ¬ it.name = jsToLowerCase itemName) :
    ∃ it,
      (addOrUpdateItem id2 (addOrUpdateItem id1 inv itemName q1 p1) itemName q2 p2).filter
          (fun x => x.name == jsToLowerCase itemName) = [it]
      ∧ it.quantity = q1 + q2 ∧ it.price = p2 ∧ it.name = jsToLowerCase itemName := by
  have hnone : inv.find? (fun it => it.name == jsToLowerCase itemName) = Option.none := by
    rw [List.find?_eq_none]
    intro x hx
    simpa using habsent x hx
  have h1 : addOrUpdateItem id1 inv itemName q1 p1
      = inv ++ [newItemDoc id1 (jsToLowerCase itemName) q1 p1 Option.none] :=
    addOrUpdateItem_create_eq id1 inv itemName q1 p1 Option.none hnone
  set d := newItemDoc id1 (jsToLowerCase itemName) q1 p1 Option.none with hd
  have hdname : d.name = jsToLowerCase itemName := by
    rw [hd]
    rfl
  have hpd : (d.name == jsToLowerCase itemName) = true := by
    simp [hdname]
  have h2 : (inv ++ [d]).find? (fun it => it.name == jsToLowerCase itemName)
      = Option.some d := by
    rw [List.find?_append, hnone]
    simp [hpd]
  have h3 : addOrUpdateItem id2 (inv ++ [d]) itemName q2 p2
      = inv ++ [applyItemUpdate q2 p2 Option.none d] := by
    rw [addOrUpdateItem]
    simp only [h2]
    rw [updateFirst_append_not _ _ inv [d] (fun x hx => by simpa using habsent x hx)]
    simp [updateFirst, hpd]
  set d2 := applyItemUpdate q2 p2 Option.none d with hd2
  have hd2name : d2.name = jsToLowerCase itemName := by
    rw [hd2, applyItemUpdate, hd]
    rfl
  have hfilter :
      (addOrUpdateItem id2 (addOrUpdateItem id1 inv itemName q1 p1) itemName q2 p2).filter
        (fun x => x.name == jsToLowerCase itemName) = [d2] := by
    rw [h1, h3, List.filter_append]
    have hleft : inv.filter (fun x => x.name == jsToLowerCase itemName) = [] := by
      rw [List.filter_eq_nil_iff]
      intro x hx
      simpa using habsent x hx
    rw [hleft]
    simp [hd2name]
  have hq : d2.quantity = q1 + q2 := by
    rw [hd2, applyItemUpdate, hd, newItemDoc]
  have hp : d2.price = p2 := by
    rw [hd2, applyItemUpdate]
  exact ⟨d2, hfilter, hq, hp, hd2name⟩

/-- C1 witness: two concrete adds of Pepsi on an empty inventory. -/
theorem addOrUpdateItem_twice_accumulates_witness :
    ∃ it,
      (addOrUpdateItem 1 (addOrUpdateItem 0 [] "Pepsi" 10 5) "Pepsi" 3 7).filter
          (fun x => x.name == jsToLowerCase "Pepsi") = [it]
      ∧ it.quantity = 10 + 3 ∧ it.price = 7 ∧ it.name = jsToLowerCase "Pepsi" :=
  addOrUpdateItem_twice_accumulates 0 1 [] "Pepsi" 10 5 3 7 (by simp)

/-- C2: `removeItem` surfaces expected business conditions as a structured
failure result (it is a total function into `RemoveResult × Store`, never a
thrown error): with no matching item it fails and the store is unchanged, and
with a matching item whose current quantity is below the requested removal it
fails and the store — in particular the item's quantity — is unchanged. -/
theorem removeItem_business_failures (store : Store) (itemName : String) (q : Int) :
    (findItemByName store.inventory (jsToLowerCase itemName) = Option.none →
      (removeItem store itemName q).1.success = false
      ∧ (removeItem store itemName q).2 = store)
    ∧ (∀ e, findItemByName store.inventory (jsToLowerCase itemName) = Option.some e →
        store.inventory.Pairwise (fun a b => a.id ≠ b.id) →
        e.quantity < q →
        (removeItem store itemName q).1.success = false
        ∧ (removeItem store itemName q).2 = store) := by
  constructor
  · intro h
    simp [removeItem, h]
  · intro e hfind hids hlt
    have he : e ∈ store.inventory :=
      List.mem_of_find?_eq_some (by simpa [findItemByName] using hfind)
    have hre : store.inventory.find? (fun it => it.id == e.id) = Option.some e :=
      find?_id_of_mem store.inventory e hids he
    simp [removeItem, hfind, hre, hlt]

/-- C2 witness: removing five Pepsi when only three are in stock, and removing
from an inventory that has no such item. -/
theorem removeItem_business_failures_witness :
    ((removeItem { inventory := [{ id := 0, name := "pepsi", quantity := 3, price := 5 }],
                   notifications := [] } "pepsi" 5).1.success = false
      ∧ (removeItem { inventory := [{ id := 0, name := "pepsi", quantity := 3, price := 5 }],
                      notifications := [] } "pepsi" 5).2
          = { inventory := [{ id := 0, name := "pepsi", quantity := 3, price := 5 }],
              notifications := [] })
    ∧ ((removeItem exEmptyStore "pepsi" 1).1.success = false
      ∧ (removeItem exEmptyStore "pepsi" 1).2 = exEmptyStore) :=
  ⟨(removeItem_business_failures
      { inventory := [{ id := 0, name := "pepsi", quantity := 3, price := 5 }],
        notifications := [] } "pepsi" 5).2
      { id := 0, name := "pepsi", quantity := 3, price := 5 } (by decide) (by decide)
      (by decide),
   (removeItem_business_failures exEmptyStore "pepsi" 1).1 (by decide)⟩

/-- C5: a `provideItemPrice` tool call arriving while no awaiting-price slot is
set always comes back as a failure result and leaves the whole handler state —
inventory store and all pending slots — unchanged. -/
theorem provideItemPrice_orphaned (lims : FreePlanLimits) (prof : UserProfile)
    (freshId : Nat) (st : HandlerState) (price : Int)
    (h : st.awaitingPriceInfo = Option.none) :
    (handleToolCall lims prof freshId st (FunctionCall.provideItemPrice price)).1.success = false
    ∧ (handleToolCall lims prof freshId st (FunctionCall.provideItemPrice price)).2 = st := by
  simp [handleToolCall, h]

/-- C5 witness: an orphaned `provideItemPrice` against the idle state. -/
theorem provideItemPrice_orphaned_witness :
    (handleToolCall exLims exProfile 0 exState (FunctionCall.provideItemPrice 5)).1.success = false
    ∧ (handleToolCall exLims exProfile 0 exState (FunctionCall.provideItemPrice 5)).2 = exState :=
  provideItemPrice_orphaned exLims exProfile 0 exState 5 rfl

/-- C6: removing exactly the current stock of an existing item succeeds,
deletes the record entirely (a subsequent lookup by that name finds nothing,
and no document with the item's id — hence none with quantity zero — remains)
and cleans up every notification referencing the item. The hypotheses state
that Firestore document ids are unique and that the normalized name is the
collection's natural key, unique per user. -/
theorem removeItem_exact_depletion (store : Store) (itemName : String)
    (e : InventoryItem)
    (hfind : findItemByName store.inventory (jsToLowerCase itemName) = Option.some e)
    (hids : store.inventory.Pairwise (fun a b => a.id ≠ b.id))
    (hnames : store.inventory.Pairwise (fun a b => a.name ≠ b.name)) :
    (removeItem store itemName e.quantity).1.success = true
    ∧ findItemByName (removeItem store itemName e.quantity).2.inventory
        (jsToLowerCase itemName) = Option.none
    ∧ (∀ it ∈ (removeItem store itemName e.quantity).2.inventory, it.id ≠ e.id)
    ∧ (∀ n ∈ (removeItem store itemName e.quantity).2.notifications, n.itemId ≠ e.id) := by
  have hfind' : store.inventory.find?
      (fun it => it.name == jsToLowerCase (jsToLowerCase itemName)) = Option.some e := by
    simpa [findItemByName] using hfind
  have he : e ∈ store.inventory := List.mem_of_find?_eq_some hfind'
  have hename : e.name = jsToLowerCase (jsToLowerCase itemName) := by
    have := List.find?_some hfind'
    simpa using this
  have hre : store.inventory.find? (fun it => it.id == e.id) = Option.some e :=
    find?_id_of_mem store.inventory e hids he
  have hlt : ¬ e.quantity < e.quantity := lt_irrefl _
  have hrun : removeItem store itemName e.quantity
      = ({ success := true, message := "Removed all " ++ itemName ++ "." },
         { inventory := store.inventory.filter (fun it => it.id != e.id),
           notifications := deleteNotificationsForItem store.notifications e.id }) := by
    rw [removeItem]
    simp only [hfind, hre, if_neg hlt, sub_self]
    simp
  refine ⟨by rw [hrun], ?_, ?_, ?_⟩
  · rw [hrun]
    rw [findItemByName, List.find?_eq_none]
    intro it hit
    have hit' := List.mem_filter.mp hit
    have hitid : it.id ≠ e.id := by simpa using hit'.2
    have hitne : it ≠ e := fun hcontra => hitid (by rw [hcontra])
    have hdiff : it.name ≠ e.name :=
      hnames.forall (fun a b hab => hab.symm) hit'.1 he hitne
    simp only [beq_eq_false_iff_ne, ne_eq, beq_iff_eq]
    rw [hename] at hdiff
    exact hdiff
  · rw [hrun]
    intro it hit
    have hit' := List.mem_filter.mp hit
    simpa using hit'.2
  · rw [hrun]
    intro n hn
    have hn' := List.mem_filter.mp hn
    simpa [deleteNotificationsForItem] using hn'.2

/-- C6 witness: depleting the only three Pepsi removes the document and the
notification referencing it. -/
theorem removeItem_exact_depletion_witness :
    (removeItem
        { inventory := [{ id := 0, name := "pepsi", quantity := 3, price := 5 }],
          notifications := [{ id := 7, itemId := 0 }, { id := 8, itemId := 4 }] }
        "Pepsi" 3).1.success = true
    ∧ findItemByName
        (removeItem
          { inventory := [{ id := 0, name := "pepsi", quantity := 3, price := 5 }],
            notifications := [{ id := 7, itemId := 0 }, { id := 8, itemId := 4 }] }
          "Pepsi" 3).2.inventory (jsToLowerCase "Pepsi") = Option.none
    ∧ (∀ it ∈ (removeItem
          { inventory := [{ id := 0, name := "pepsi", quantity := 3, price := 5 }],
            notifications := [{ id := 7, itemId := 0 }, { id := 8, itemId := 4 }] }
          "Pepsi" 3).2.inventory, it.id ≠ 0)
    ∧ (∀ n ∈ (removeItem
          { inventory := [{ id := 0, name := "pepsi", quantity := 3, price := 5 }],
            notifications := [{ id := 7, itemId := 0 }, { id := 8, itemId := 4 }] }
          "Pepsi" 3).2.notifications, n.itemId ≠ 0) :=
  removeItem_exact_depletion
    { inventory := [{ id := 0, name := "pepsi", quantity := 3, price := 5 }],
      notifications := [{ id := 7, itemId := 0 }, { id := 8, itemId := 4 }] }
    "Pepsi" { id := 0, name := "pepsi", quantity := 3, price := 5 }
    (by decide) (by decide) (by decide)

/-- C8: on an update of an existing item, `addOrUpdateItem` touches only the
matched record (all records before and after it are unchanged); on that record
quantity accumulates and price is overwritten, the identity fields (`id`,
`name`, `supplierId`, `alertRules`) are unchanged, and the expiry fields are
overwritten (with status and last-alerted reset) when an expiry date is given
but all preserved when the expiry argument is omitted. A given expiry date is
restricted to the pattern-checked `DD-MM-YYYY` shape — the only shape the
voice flow passes on — because with a malformed date the real transaction
write throws (Firestore rejects an `undefined` or invalid timestamp) and no
update happens at all; on the restricted domain the embedding is exact. -/
theorem addOrUpdateItem_update_frame (freshId : Nat) (inv : List InventoryItem)
    (itemName : String) (q p : Int) (dOpt : Option String) (e : InventoryItem)
    (hfind : inv.find? (fun it => it.name == jsToLowerCase itemName) = Option.some e)
    (hdok : ∀ d, dOpt = Option.some d → matchesDDMMYYYY d = true) :
    ∃ l₁ l₂,
      inv = l₁ ++ e :: l₂
      ∧ addOrUpdateItem freshId inv itemName q p dOpt
          = l₁ ++ applyItemUpdate q p dOpt e :: l₂
      ∧ (applyItemUpdate q p dOpt e).quantity = e.quantity + q
      ∧ (applyItemUpdate q p dOpt e).price = p
      ∧ (applyItemUpdate q p dOpt e).id = e.id
      ∧ (applyItemUpdate q p dOpt e).name = e.name
      ∧ (applyItemUpdate q p dOpt e).supplierId = e.supplierId
      ∧ (applyItemUpdate q p dOpt e).alertRules = e.alertRules
      ∧ (∀ d, dOpt = Option.some d →
          (applyItemUpdate q p dOpt e).expiryDate = Option.some d
          ∧ (applyItemUpdate q p dOpt e).expiryTimestamp = parseExpiryTimestamp d
          ∧ (applyItemUpdate q p dOpt e).expiryStatus = Option.some ExpiryStatus.none
          ∧ (applyItemUpdate q p dOpt e).lastAlertedAt = Option.none)
      ∧ (dOpt = Option.none →
          (applyItemUpdate q p dOpt e).expiryDate = e.expiryDate
          ∧ (applyItemUpdate q p dOpt e).expiryTimestamp = e.expiryTimestamp
          ∧ (applyItemUpdate q p dOpt e).expiryStatus = e.expiryStatus
          ∧ (applyItemUpdate q p dOpt e).lastAlertedAt = e.lastAlertedAt) := by
  obtain ⟨l₁, l₂, hdec, _, hupd⟩ :=
    addOrUpdateItem_update_decomp freshId inv itemName q p dOpt e hfind
  refine ⟨l₁, l₂, hdec, hupd, ?_, ?_, ?_, ?_, ?_, ?_, ?_, ?_⟩ <;>
    cases dOpt with
    | none => simp [applyItemUpdate]
    | some d =>
      have hne : d.isEmpty = false := matchesDDMMYYYY_not_empty d (hdok d rfl)
      simp [applyItemUpdate, hne]

/-- C8 witness: the existing milk record (custom alert rules, populated expiry
fields) updated once with the expiry date `31-12-2025` — the expiry fields are
rewritten, `alertRules` survives — and once with the expiry argument omitted —
every expiry field survives. -/
theorem addOrUpdateItem_update_frame_witness :
    (∃ l₁ l₂,
      [exMilkItem] = l₁ ++ exMilkItem :: l₂
      ∧ addOrUpdateItem 9 [exMilkItem] "Milk" 2 3 (Option.some "31-12-2025")
          = l₁ ++ applyItemUpdate 2 3 (Option.some "31-12-2025") exMilkItem :: l₂
      ∧ (applyItemUpdate 2 3 (Option.some "31-12-2025") exMilkItem).quantity
          = exMilkItem.quantity + 2
      ∧ (applyItemUpdate 2 3 (Option.some "31-12-2025") exMilkItem).price = 3
      ∧ (applyItemUpdate 2 3 (Option.some "31-12-2025") exMilkItem).id = exMilkItem.id
      ∧ (applyItemUpdate 2 3 (Option.some "31-12-2025") exMilkItem).name = exMilkItem.name
      ∧ (applyItemUpdate 2 3 (Option.some "31-12-2025") exMilkItem).supplierId
          = exMilkItem.supplierId
      ∧ (applyItemUpdate 2 3 (Option.some "31-12-2025") exMilkItem).alertRules
          = exMilkItem.alertRules
      ∧ (∀ d, (Option.some "31-12-2025" : Option String) = Option.some d →
          (applyItemUpdate 2 3 (Option.some "31-12-2025") exMilkItem).expiryDate
              = Option.some d
          ∧ (applyItemUpdate 2 3 (Option.some "31-12-2025") exMilkItem).expiryTimestamp
              = parseExpiryTimestamp d
          ∧ (applyItemUpdate 2 3 (Option.some "31-12-2025") exMilkItem).expiryStatus
              = Option.some ExpiryStatus.none
          ∧ (applyItemUpdate 2 3 (Option.some "31-12-2025") exMilkItem).lastAlertedAt
              = Option.none)
      ∧ ((Option.some "31-12-2025" : Option String) = Option.none →
          (applyItemUpdate 2 3 (Option.some "31-12-2025") exMilkItem).expiryDate
              = exMilkItem.expiryDate
          ∧ (applyItemUpdate 2 3 (Option.some "31-12-2025") exMilkItem).expiryTimestamp
              = exMilkItem.expiryTimestamp
          ∧ (applyItemUpdate 2 3 (Option.some "31-12-2025") exMilkItem).expiryStatus
              = exMilkItem.expiryStatus
          ∧ (applyItemUpdate 2 3 (Option.some "31-12-2025") exMilkItem).lastAlertedAt
              = exMilkItem.lastAlertedAt))
    ∧ (∃ l₁ l₂,
      [exMilkItem] = l₁ ++ exMilkItem :: l₂
      ∧ addOrUpdateItem 9 [exMilkItem] "Milk" 2 3 Option.none
          = l₁ ++ applyItemUpdate 2 3 Option.none exMilkItem :: l₂
      ∧ (applyItemUpdate 2 3 Option.none exMilkItem).quantity = exMilkItem.quantity + 2
      ∧ (applyItemUpdate 2 3 Option.none exMilkItem).price = 3
      ∧ (applyItemUpdate 2 3 Option.none exMilkItem).id = exMilkItem.id
      ∧ (applyItemUpdate 2 3 Option.none exMilkItem).name = exMilkItem.name
      ∧ (applyItemUpdate 2 3 Option.none exMilkItem).supplierId = exMilkItem.supplierId
      ∧ (applyItemUpdate 2 3 Option.none exMilkItem).alertRules = exMilkItem.alertRules
      ∧ (∀ d, (Option.none : Option String) = Option.some d →
          (applyItemUpdate 2 3 Option.none exMilkItem).expiryDate = Option.some d
          ∧ (applyItemUpdate 2 3 Option.none exMilkItem).expiryTimestamp
              = parseExpiryTimestamp d
          ∧ (applyItemUpdate 2 3 Option.none exMilkItem).expiryStatus
              = Option.some ExpiryStatus.none
          ∧ (applyItemUpdate 2 3 Option.none exMilkItem).lastAlertedAt = Option.none)
      ∧ ((Option.none : Option String) = Option.none →
          (applyItemUpdate 2 3 Option.none exMilkItem).expiryDate = exMilkItem.expiryDate
          ∧ (applyItemUpdate 2 3 Option.none exMilkItem).expiryTimestamp
              = exMilkItem.expiryTimestamp
          ∧ (applyItemUpdate 2 3 Option.none exMilkItem).expiryStatus
              = exMilkItem.expiryStatus
          ∧ (applyItemUpdate 2 3 Option.none exMilkItem).lastAlertedAt
              = exMilkItem.lastAlertedAt)) :=
  ⟨addOrUpdateItem_update_frame 9 [exMilkItem] "Milk" 2 3 (Option.some "31-12-2025")
      exMilkItem (by decide) (fun d hd => by cases hd; decide),
   addOrUpdateItem_update_frame 9 [exMilkItem] "Milk" 2 3 Option.none
      exMilkItem (by decide) (fun d hd => by cases hd)⟩

/-- C10: creating a new item with an expiry date initializes `expiryStatus` to
the `'none'` status and `alertRules` to the defaults (seven days before,
notify when expired); updating an existing item with an expiry date rewrites
`expiryDate`, `expiryTimestamp`, `expiryStatus` (back to `'none'`) and
`lastAlertedAt` (cleared) but leaves the item's existing `alertRules`
untouched. The date is restricted to the pattern-checked `DD-MM-YYYY` shape —
the only shape the voice flow passes on — because with a malformed date the
real transaction write can throw (invalid or `undefined` timestamp) and write
nothing; on the restricted domain the embedding is exact. -/
theorem addOrUpdateItem_expiry_defaults (freshId : Nat) (inv : List InventoryItem)
    (itemName : String) (q p : Int) (d : String) (hd : matchesDDMMYYYY d = true) :
    (inv.find? (fun it => it.name == jsToLowerCase itemName) = Option.none →
      addOrUpdateItem freshId inv itemName q p (Option.some d)
        = inv ++ [newItemDoc freshId (jsToLowerCase itemName) q p (Option.some d)]
      ∧ (newItemDoc freshId (jsToLowerCase itemName) q p (Option.some d)).expiryStatus
          = Option.some ExpiryStatus.none
      ∧ (newItemDoc freshId (jsToLowerCase itemName) q p (Option.some d)).alertRules
          = Option.some { notifyBeforeDays := 7, notifyWhenExpired := true }
      ∧ (newItemDoc freshId (jsToLowerCase itemName) q p (Option.some d)).expiryDate
          = Option.some d
      ∧ (newItemDoc freshId (jsToLowerCase itemName) q p (Option.some d)).expiryTimestamp
          = parseExpiryTimestamp d)
    ∧ (∀ e, inv.find? (fun it => it.name == jsToLowerCase itemName) = Option.some e →
        ∃ l₁ l₂, inv = l₁ ++ e :: l₂
          ∧ addOrUpdateItem freshId inv itemName q p (Option.some d)
              = l₁ ++ applyItemUpdate q p (Option.some d) e :: l₂
          ∧ (applyItemUpdate q p (Option.some d) e).expiryDate = Option.some d
          ∧ (applyItemUpdate q p (Option.some d) e).expiryTimestamp = parseExpiryTimestamp d
          ∧ (applyItemUpdate q p (Option.some d) e).expiryStatus
              = Option.some ExpiryStatus.none
          ∧ (applyItemUpdate q p (Option.some d) e).lastAlertedAt = Option.none
          ∧ (applyItemUpdate q p (Option.some d) e).alertRules = e.alertRules) := by
  have hne : d.isEmpty = false := matchesDDMMYYYY_not_empty d hd
  constructor
  · intro hnone
    refine ⟨addOrUpdateItem_create_eq freshId inv itemName q p (Option.some d) hnone,
      ?_, ?_, ?_, ?_⟩ <;> simp [newItemDoc, hne]
  · intro e hfind
    obtain ⟨l₁, l₂, hdec, _, hupd⟩ :=
      addOrUpdateItem_update_decomp freshId inv itemName q p (Option.some d) e hfind
    exact ⟨l₁, l₂, hdec, hupd, by simp [applyItemUpdate, hne], by simp [applyItemUpdate, hne],
      by simp [applyItemUpdate, hne], by simp [applyItemUpdate, hne],
      by simp [applyItemUpdate, hne]⟩

/-- C10 witness: a create of dated milk on the empty inventory (default alert
rules appear), and an update of the existing milk record — which carries
custom alert rules — with the same date (the expiry fields are rewritten, the
custom alert rules survive). -/
theorem addOrUpdateItem_expiry_defaults_witness :
    (addOrUpdateItem 3 [] "Milk" 2 10 (Option.some "31-12-2025")
        = [] ++ [newItemDoc 3 (jsToLowerCase "Milk") 2 10 (Option.some "31-12-2025")]
      ∧ (newItemDoc 3 (jsToLowerCase "Milk") 2 10 (Option.some "31-12-2025")).expiryStatus
          = Option.some ExpiryStatus.none
      ∧ (newItemDoc 3 (jsToLowerCase "Milk") 2 10 (Option.some "31-12-2025")).alertRules
          = Option.some { notifyBeforeDays := 7, notifyWhenExpired := true }
      ∧ (newItemDoc 3 (jsToLowerCase "Milk") 2 10 (Option.some "31-12-2025")).expiryDate
          = Option.some "31-12-2025"
      ∧ (newItemDoc 3 (jsToLowerCase "Milk") 2 10 (Option.some "31-12-2025")).expiryTimestamp
          = parseExpiryTimestamp "31-12-2025")
    ∧ (∃ l₁ l₂, [exMilkItem] = l₁ ++ exMilkItem :: l₂
        ∧ addOrUpdateItem 9 [exMilkItem] "Milk" 2 10 (Option.some "31-12-2025")
            = l₁ ++ applyItemUpdate 2 10 (Option.some "31-12-2025") exMilkItem :: l₂
        ∧ (applyItemUpdate 2 10 (Option.some "31-12-2025") exMilkItem).expiryDate
            = Option.some "31-12-2025"
        ∧ (applyItemUpdate 2 10 (Option.some "31-12-2025") exMilkItem).expiryTimestamp
            = parseExpiryTimestamp "31-12-2025"
        ∧ (applyItemUpdate 2 10 (Option.some "31-12-2025") exMilkItem).expiryStatus
            = Option.some ExpiryStatus.none
        ∧ (applyItemUpdate 2 10 (Option.some "31-12-2025") exMilkItem).lastAlertedAt
            = Option.none
        ∧ (applyItemUpdate 2 10 (Option.some "31-12-2025") exMilkItem).alertRules
            = exMilkItem.alertRules) :=
  ⟨(addOrUpdateItem_expiry_defaults 3 [] "Milk" 2 10 "31-12-2025" (by decide)).1
      (by decide),
   (addOrUpdateItem_expiry_defaults 9 [exMilkItem] "Milk" 2 10 "31-12-2025" (by decide)).2
      exMilkItem (by decide)⟩

/-- C3 counterexample: in the AwaitingExpiry state, the tool call carrying
`31-13-2025` — not a valid calendar date, its month field is 13 — is NOT
rejected: the format check is only the digit-pattern regex, so the handler
reports success and commits the pending milk with that expiry string (the
`Date` rollover giving month index 12, January 2026). -/
theorem provideItemExpiryDate_invalid_month_commits :
    (handleToolCall exLims exGrocery 0 exStateExpiry
        (FunctionCall.provideItemExpiryDate "31-13-2025")).1.success = true
    ∧ (handleToolCall exLims exGrocery 0 exStateExpiry
        (FunctionCall.provideItemExpiryDate "31-13-2025")).2.store.inventory
        = [{ id := 0, name := "milk", quantity := 2, price := 10,
             expiryDate := Option.some "31-13-2025",
             expiryTimestamp := Option.some { year := 2025, monthIndex := 12, day := 31 },
             expiryStatus := Option.some ExpiryStatus.none,
             alertRules := Option.some { notifyBeforeDays := 7, notifyWhenExpired := true } }] := by
  decide

/-- C3 (amended): in the AwaitingExpiry state, a `provideItemExpiryDate` call
is rejected with a re-prompt — leaving the whole state, pending slot included,
unchanged and committing nothing — exactly when the date fails the
two-digits/dash/two-digits/dash/four-digits pattern check; any date matching
the pattern (calendar-valid or not) that also passes the quota gate commits
the pending item with that expiry and clears the slot. -/
theorem provideItemExpiryDate_format_gate (lims : FreePlanLimits) (prof : UserProfile)
    (freshId : Nat) (st : HandlerState) (info : PendingExpiryInfo) (d : String)
    (hslot : st.awaitingExpiryInfo = Option.some info) :
    (matchesDDMMYYYY d = false →
      (handleToolCall lims prof freshId st (FunctionCall.provideItemExpiryDate d)).1.success
          = false
      ∧ (handleToolCall lims prof freshId st (FunctionCall.provideItemExpiryDate d)).2 = st)
    ∧ (matchesDDMMYYYY d = true →
        checkUsageLimit lims (Option.some prof) UsageFeature.inventoryCount
          (st.store.inventory.length : Int) = true →
        (handleToolCall lims prof freshId st (FunctionCall.provideItemExpiryDate d)).1.success
            = true
        ∧ (handleToolCall lims prof freshId st
            (FunctionCall.provideItemExpiryDate d)).2.store.inventory
            = addOrUpdateItem freshId st.store.inventory info.itemName info.quantity
                info.price (Option.some d)
        ∧ (handleToolCall lims prof freshId st
            (FunctionCall.provideItemExpiryDate d)).2.awaitingExpiryInfo = Option.none) := by
  constructor
  · intro hbad
    simp [handleToolCall, hslot, hbad]
  · intro hok hquota
    simp [handleToolCall, hslot, hok, hquota]

/-- C3 witness: the valid date `31-12-2025` commits the pending milk with that
expiry and drops the slot. -/
theorem provideItemExpiryDate_format_gate_witness :
    (handleToolCall exLims exGrocery 0 exStateExpiry
        (FunctionCall.provideItemExpiryDate "31-12-2025")).1.success = true
    ∧ (handleToolCall exLims exGrocery 0 exStateExpiry
        (FunctionCall.provideItemExpiryDate "31-12-2025")).2.store.inventory
        = addOrUpdateItem 0 exEmptyStore.inventory "milk" 2 10 (Option.some "31-12-2025")
    ∧ (handleToolCall exLims exGrocery 0 exStateExpiry
        (FunctionCall.provideItemExpiryDate "31-12-2025")).2.awaitingExpiryInfo
        = Option.none :=
  (provideItemExpiryDate_format_gate exLims exGrocery 0 exStateExpiry
      { itemName := "milk", quantity := 2, price := 10 } "31-12-2025" rfl).2
    (by decide) (by decide)

/-- C4 counterexample: from the idle state, `initiateAddItem "pepsi"` (no
quantity) followed by `initiateAddItem "milk" 2` leaves BOTH the
awaiting-quantity slot (still holding pepsi) and the awaiting-price slot
(holding milk) live at once: the second `initiateAddItem` did not clear the
first pending slot. -/
theorem initiateAddItem_two_slots_live :
    ((handleToolCall exLims exProfile 0
        (handleToolCall exLims exProfile 0 exState
          (FunctionCall.initiateAddItem "pepsi" Option.none)).2
        (FunctionCall.initiateAddItem "milk" (Option.some 2))).2.awaitingQuantityInfo
      = Option.some { itemName := "pepsi" })
    ∧ ((handleToolCall exLims exProfile 0
        (handleToolCall exLims exProfile 0 exState
          (FunctionCall.initiateAddItem "pepsi" Option.none)).2
        (FunctionCall.initiateAddItem "milk" (Option.some 2))).2.awaitingPriceInfo
      = Option.some { itemName := "milk", quantity := 2 }) := by
  decide

/-- C4 (amended): `initiateAddItem` overwrites only the single pending slot
its arguments select — awaiting-price when a (truthy) quantity is given,
awaiting-quantity otherwise — and leaves the other two pending slots exactly
as they were; so a pending slot of a different kind survives the new
`initiateAddItem` and two slots can be live at once. -/
theorem initiateAddItem_slot_effect (lims : FreePlanLimits) (prof : UserProfile)
    (freshId : Nat) (st : HandlerState) (itemName : String) :
    (∀ q : Int, q ≠ 0 →
      (handleToolCall lims prof freshId st
          (FunctionCall.initiateAddItem itemName (Option.some q))).2
        = { st with awaitingPriceInfo := Option.some { itemName := itemName, quantity := q } })
    ∧ ((handleToolCall lims prof freshId st
          (FunctionCall.initiateAddItem itemName (Option.some 0))).2
        = { st with awaitingQuantityInfo := Option.some { itemName := itemName } })
    ∧ ((handleToolCall lims prof freshId st
          (FunctionCall.initiateAddItem itemName Option.none)).2
        = { st with awaitingQuantityInfo := Option.some { itemName := itemName } }) := by
  refine ⟨?_, ?_, ?_⟩
  · intro q hq
    have hq' : (q != 0) = true := by simpa using hq
    simp [handleToolCall, hq']
  · simp [handleToolCall]
  · simp [handleToolCall]

/-- C4 amended-claim witness: `initiateAddItem "milk" 2` on the AwaitingExpiry
state sets the price slot while the expiry slot stays live. -/
theorem initiateAddItem_slot_effect_witness :
    (handleToolCall exLims exProfile 0 exStateExpiry
        (FunctionCall.initiateAddItem "milk" (Option.some 2))).2
      = { exStateExpiry with
            awaitingPriceInfo := Option.some { itemName := "milk", quantity := 2 } } :=
  (initiateAddItem_slot_effect exLims exProfile 0 exStateExpiry "milk").1 2 (by decide)

/-- C7: `checkUsageLimit` always passes a pro-plan user whatever the count,
and passes a free-plan user exactly when the count is below the static limit
for the feature — so at count equal to the limit it fails; in that situation
the guarded `provideItemPrice` attempt returns a failure and leaves the
inventory store untouched, while with a pro plan the same attempt succeeds. -/
theorem checkUsageLimit_quota_gate (lims : FreePlanLimits) (prof proProf : UserProfile)
    (feature : UsageFeature) (count : Int) (st : HandlerState) (info : PendingPriceInfo)
    (freshId : Nat) (price : Int) :
    (prof.plan = Plan.pro → checkUsageLimit lims (Option.some prof) feature count = true)
    ∧ (prof.plan = Plan.free →
        (checkUsageLimit lims (Option.some prof) feature count = true
          ↔ count < staticLimit lims feature))
    ∧ (prof.plan = Plan.free → st.awaitingPriceInfo = Option.some info →
        (st.store.inventory.length : Int) = lims.maxInventoryItems →
        (handleToolCall lims prof freshId st (FunctionCall.provideItemPrice price)).1.success
            = false
        ∧ (handleToolCall lims prof freshId st (FunctionCall.provideItemPrice price)).2.store
            = st.store)
    ∧ (proProf.plan = Plan.pro → st.awaitingPriceInfo = Option.some info →
        (handleToolCall lims proProf freshId st (FunctionCall.provideItemPrice price)).1.success
            = true) := by
  refine ⟨?_, ?_, ?_, ?_⟩
  · intro hpro
    simp [checkUsageLimit, hpro]
  · intro hfree
    simp only [checkUsageLimit, hfree]
    by_cases h : count ≥ staticLimit lims feature
    · simp [h]
    · simp [h]
      omega
  · intro hfree hslot hlen
    have hcul : checkUsageLimit lims (Option.some prof) UsageFeature.inventoryCount
        (st.store.inventory.length : Int) = false := by
      simp [checkUsageLimit, hfree, staticLimit, hlen]
    simp [handleToolCall, hslot, hcul]
  · intro hpro hslot
    have hcul : checkUsageLimit lims (Option.some proProf) UsageFeature.inventoryCount
        (st.store.inventory.length : Int) = true := by
      simp [checkUsageLimit, hpro]
    simp [handleToolCall, hslot, hcul]
    split <;> rfl

/-- C7 witness: at a free-plan inventory limit of zero and an empty store the
gated `provideItemPrice` fails without touching the store; the pro plan passes
the same attempt. -/
theorem checkUsageLimit_quota_gate_witness :
    ((handleToolCall exTightLims exGrocery 0 exStatePrice
        (FunctionCall.provideItemPrice 7)).1.success = false
      ∧ (handleToolCall exTightLims exGrocery 0 exStatePrice
          (FunctionCall.provideItemPrice 7)).2.store = exStatePrice.store)
    ∧ (handleToolCall exTightLims exProGrocery 0 exStatePrice
        (FunctionCall.provideItemPrice 7)).1.success = true :=
  ⟨(checkUsageLimit_quota_gate exTightLims exGrocery exProGrocery
      UsageFeature.inventoryCount 0 exStatePrice { itemName := "milk", quantity := 2 }
      0 7).2.2.1 rfl rfl (by decide),
   (checkUsageLimit_quota_gate exTightLims exGrocery exProGrocery
      UsageFeature.inventoryCount 0 exStatePrice { itemName := "milk", quantity := 2 }
      0 7).2.2.2 rfl rfl⟩

/-- C9: the `provideItemPrice` branch clears the awaiting-price slot before
its quota check, so a quota failure there drops the session to Idle — the
store is untouched but the slot is gone, and a retried `provideItemPrice`
(with any profile, e.g. after an upgrade) fails as an orphaned response; the
`provideItemExpiryDate` branch instead leaves the state — awaiting-expiry slot
included — fully unchanged on a malformed date or a quota failure, so the
same call retried after an upgrade to pro succeeds. -/
theorem price_slot_dropped_expiry_slot_kept (lims : FreePlanLimits)
    (prof prof2 : UserProfile) (freshId freshId2 : Nat) (st : HandlerState)
    (info : PendingPriceInfo) (einfo : PendingExpiryInfo) (d : String)
    (price price2 : Int) :
    (prof.plan = Plan.free → st.awaitingPriceInfo = Option.some info →
      (st.store.inventory.length : Int) ≥ lims.maxInventoryItems →
      (handleToolCall lims prof freshId st (FunctionCall.provideItemPrice price)).1.success
          = false
      ∧ (handleToolCall lims prof freshId st
          (FunctionCall.provideItemPrice price)).2.awaitingPriceInfo = Option.none
      ∧ (handleToolCall lims prof freshId st (FunctionCall.provideItemPrice price)).2.store
          = st.store
      ∧ (handleToolCall lims prof2 freshId2
          (handleToolCall lims prof freshId st (FunctionCall.provideItemPrice price)).2
          (FunctionCall.provideItemPrice price2)).1.success = false
      ∧ (handleToolCall lims prof2 freshId2
          (handleToolCall lims prof freshId st (FunctionCall.provideItemPrice price)).2
          (FunctionCall.provideItemPrice price2)).2
          = (handleToolCall lims prof freshId st (FunctionCall.provideItemPrice price)).2)
    ∧ (st.awaitingExpiryInfo = Option.some einfo →
        (matchesDDMMYYYY d = false →
          (handleToolCall lims prof freshId st
              (FunctionCall.provideItemExpiryDate d)).1.success = false
          ∧ (handleToolCall lims prof freshId st (FunctionCall.provideItemExpiryDate d)).2
              = st)
        ∧ (matchesDDMMYYYY d = true → prof.plan = Plan.free →
            (st.store.inventory.length : Int) ≥ lims.maxInventoryItems →
            (handleToolCall lims prof freshId st
                (FunctionCall.provideItemExpiryDate d)).1.success = false
            ∧ (handleToolCall lims prof freshId st (FunctionCall.provideItemExpiryDate d)).2
                = st)
        ∧ (matchesDDMMYYYY d = true → prof2.plan = Plan.pro →
            (handleToolCall lims prof2 freshId2 st
                (FunctionCall.provideItemExpiryDate d)).1.success = true
            ∧ (handleToolCall lims prof2 freshId2 st
                (FunctionCall.provideItemExpiryDate d)).2.awaitingExpiryInfo
                = Option.none)) := by
  constructor
  · intro hfree hslot hge
    have hcul : checkUsageLimit lims (Option.some prof) UsageFeature.inventoryCount
        (st.store.inventory.length : Int) = false := by
      simp [checkUsageLimit, hfree, staticLimit, hge]
    have hfail : handleToolCall lims prof freshId st (FunctionCall.provideItemPrice price)
        = ({ success := false, message := "Inventory limit reached. Upgrade to add more items." },
           { st with awaitingPriceInfo := Option.none }) := by
      simp [handleToolCall, hslot, hcul]
    rw [hfail]
    refine ⟨rfl, rfl, rfl, ?_, ?_⟩ <;> simp [handleToolCall]
  · intro hslot
    refine ⟨?_, ?_, ?_⟩
    · intro hbad
      simp [handleToolCall, hslot, hbad]
    · intro hok hfree hge
      have hcul : checkUsageLimit lims (Option.some prof) UsageFeature.inventoryCount
          (st.store.inventory.length : Int) = false := by
        simp [checkUsageLimit, hfree, staticLimit, hge]
      simp [handleToolCall, hslot, hok, hcul]
    · intro hok hpro
      have hcul : checkUsageLimit lims (Option.some prof2) UsageFeature.inventoryCount
          (st.store.inventory.length : Int) = true := by
        simp [checkUsageLimit, hpro]
      simp [handleToolCall, hslot, hok, hcul]

/-- C9 witness: with both a price slot and an expiry slot live over an empty
store and an exhausted free quota, the price attempt drops its slot and the
retry is orphaned, while the expiry attempt keeps its slot and succeeds when
retried on the pro plan. -/
theorem price_slot_dropped_expiry_slot_kept_witness :
    ((handleToolCall exTightLims exGrocery 0 exStatePrice
        (FunctionCall.provideItemPrice 7)).1.success = false
      ∧ (handleToolCall exTightLims exGrocery 0 exStatePrice
          (FunctionCall.provideItemPrice 7)).2.awaitingPriceInfo = Option.none
      ∧ (handleToolCall exTightLims exGrocery 0 exStatePrice
          (FunctionCall.provideItemPrice 7)).2.store = exStatePrice.store
      ∧ (handleToolCall exTightLims exProGrocery 1
          (handleToolCall exTightLims exGrocery 0 exStatePrice
            (FunctionCall.provideItemPrice 7)).2
          (FunctionCall.provideItemPrice 8)).1.success = false
      ∧ (handleToolCall exTightLims exProGrocery 1
          (handleToolCall exTightLims exGrocery 0 exStatePrice
            (FunctionCall.provideItemPrice 7)).2
          (FunctionCall.provideItemPrice 8)).2
          = (handleToolCall exTightLims exGrocery 0 exStatePrice
              (FunctionCall.provideItemPrice 7)).2)
    ∧ ((handleToolCall exTightLims exGrocery 0 exStateExpiry
          (FunctionCall.provideItemExpiryDate "31-12-2025")).1.success = false
      ∧ (handleToolCall exTightLims exGrocery 0 exStateExpiry
          (FunctionCall.provideItemExpiryDate "31-12-2025")).2 = exStateExpiry)
    ∧ ((handleToolCall exTightLims exProGrocery 1 exStateExpiry
          (FunctionCall.provideItemExpiryDate "31-12-2025")).1.success = true
      ∧ (handleToolCall exTightLims exProGrocery 1 exStateExpiry
          (FunctionCall.provideItemExpiryDate "31-12-2025")).2.awaitingExpiryInfo
          = Option.none) :=
  ⟨(price_slot_dropped_expiry_slot_kept exTightLims exGrocery exProGrocery 0 1
      exStatePrice { itemName := "milk", quantity := 2 }
      { itemName := "milk", quantity := 2, price := 10 } "31-12-2025" 7 8).1
      rfl rfl (by decide),
   ((price_slot_dropped_expiry_slot_kept exTightLims exGrocery exProGrocery 0 1
      exStateExpiry { itemName := "milk", quantity := 2 }
      { itemName := "milk", quantity := 2, price := 10 } "31-12-2025" 7 8).2
      rfl).2.1 (by decide) rfl (by decide),
   ((price_slot_dropped_expiry_slot_kept exTightLims exGrocery exProGrocery 0 1
      exStateExpiry { itemName := "milk", quantity := 2 }
      { itemName := "milk", quantity := 2, price := 10 } "31-12-2025" 7 8).2
      rfl).2.2 (by decide) rfl⟩

end StockPilot
